import Mathlib

/-
Verification of the Olympus CRUD scaffolding generators.

The repository contains two generator scripts:

* `Gen1` models the generator whose artifacts live under
  `libs/olympus/core/src/lib` (interface + service + entity + controller +
  migration, with an `index.ts` manifest merge); its parser strips the
  optional marker from the *name* side of a field token.
* `Gen2` models `scripts/generate-crud.js` (entity/module/service/controller,
  DTOs, migration, client interface and client service, with
  `models/index.ts` and `services/index.ts` manifest merges); its parser
  strips the optional marker from the *type* side.

Strings are modelled as `List Char`; the JavaScript string operations used by
the scripts (`trim`, `toLowerCase`, `includes`, single-occurrence `replace`,
`split` on a one-character separator) are given exact counterparts below.
JS `charAt(0).toUpperCase()`, `toLowerCase` and the regexp class `[A-Z]` are
modelled by the ASCII `Char.toUpper` / `Char.toLower` / `Char.isUpper`, which
agree with JavaScript on ASCII identifiers.  Emitted artifacts are modelled
structurally: each emitter's per-field template lines become records holding
exactly the data the template interpolates (member name, rendered type,
optional/nullable markers, decorators), in the order the template emits them.
-/

namespace Olympus

abbrev Str := List Char

/-- JS `String.prototype.trim`: drop whitespace from both ends. -/
def trimJS (s : Str) : Str :=
  ((s.dropWhile Char.isWhitespace).reverse.dropWhile Char.isWhitespace).reverse

/-- JS `String.prototype.toLowerCase` (ASCII fragment). -/
def toLowerJS (s : Str) : Str := s.map Char.toLower

/-- JS `s.includes(sub)`: substring containment. -/
def jsIncludes (s sub : Str) : Bool := decide (sub <:+: s)

/-- JS `s.replace(pat, rep)` with a string pattern: replace only the first
occurrence of `pat`. -/
def replaceFirst (s pat rep : Str) : Str :=
  match s with
  | [] => if pat.isPrefixOf ([] : Str) then rep else []
  | c :: cs =>
    if pat.isPrefixOf (c :: cs) then rep ++ (c :: cs).drop pat.length
    else c :: replaceFirst cs pat rep

namespace Gen1

/-- One parsed field of the first generator: `{ name, type, isOptional }`. -/
structure Field where
  name : Str
  type : Str
  isOptional : Bool
deriving DecidableEq

/-- Body of the `map` in the first generator's `parseFields`:
`const [name, type] = field.trim().split(':')` (so `name` is the first
segment and `type` the second; later segments are dropped by the
destructuring), `isOptional = name.includes('?')`, the name has its first
`?` removed, and `type || 'string'` defaults a missing or empty type token
to `string`. -/
def parseField (field : Str) : Field :=
  let parts := (trimJS field).splitOn ':'
  let name := parts.headD []
  { name := replaceFirst name ['?'] []
    type :=
      match parts[1]? with
      | none => ("string".toList)
      | some t => if t = [] then ("string".toList) else t
    isOptional := jsIncludes name ['?'] }

/-- `parseFields`: split the raw spec string on `,` and parse each token. -/
def parseFields (fieldsString : Str) : List Field :=
  (fieldsString.splitOn ',').map parseField

/-- The `typeMap` object of `getTypeScriptType`. -/
def tsTypeMap : List (Str × Str) :=
  [(("string".toList), ("string".toList)),
   (("number".toList), ("number".toList)),
   (("boolean".toList), ("boolean".toList)),
   (("date".toList), ("Date".toList)),
   (("uuid".toList), ("string".toList)),
   (("text".toList), ("string".toList)),
   (("int".toList), ("number".toList)),
   (("float".toList), ("number".toList)),
   (("decimal".toList), ("number".toList))]

/-- `getTypeScriptType`: look the lower-cased token up in `typeMap`,
defaulting to `string`. -/
def getTypeScriptType (t : Str) : Str :=
  (tsTypeMap.lookup (toLowerJS t)).getD ("string".toList)

/-- The `typeMap` object of `getTypeORMType`. -/
def ormTypeMap : List (Str × Str) :=
  [(("string".toList), ("varchar".toList)),
   (("number".toList), ("numeric".toList)),
   (("boolean".toList), ("boolean".toList)),
   (("date".toList), ("timestamp".toList)),
   (("uuid".toList), ("uuid".toList)),
   (("text".toList), ("text".toList)),
   (("int".toList), ("int".toList)),
   (("float".toList), ("float".toList)),
   (("decimal".toList), ("decimal".toList))]

/-- `getTypeORMType`: look the lower-cased token up in `typeMap`,
defaulting to `varchar`. -/
def getTypeORMType (t : Str) : Str :=
  (ormTypeMap.lookup (toLowerJS t)).getD ("varchar".toList)

/-- `toPascalCase`: `charAt(0).toUpperCase() + slice(1)`. -/
def toPascalCase (s : Str) : Str :=
  match s with
  | [] => []
  | c :: cs => Char.toUpper c :: cs

/-- `toCamelCase`: `charAt(0).toLowerCase() + slice(1)`. -/
def toCamelCase (s : Str) : Str :=
  match s with
  | [] => []
  | c :: cs => Char.toLower c :: cs

/-- Table name interpolated into the `@Entity` decorator:
`'${entityCamel}s'`. -/
def entityTableName (entityName : Str) : Str := toCamelCase entityName ++ ['s']

/-- Route segment interpolated into the `@Controller` decorator:
`'${entityCamel}s'`. -/
def controllerRoute (entityName : Str) : Str := toCamelCase entityName ++ ['s']

/-- Table name interpolated into the migration's `createTable`/`dropTable`:
`'${entityCamel}s'`. -/
def migrationTableName (entityName : Str) : Str := toCamelCase entityName ++ ['s']

/-- One member line of a generated TypeScript interface:
`name?: tsType;` (`optionalMark` records the interpolated `?`). -/
structure Member where
  name : Str
  tsType : Str
  optionalMark : Bool
deriving DecidableEq

/-- The per-field interface line
`${field.name}${field.isOptional ? '?' : ''}: ${getTypeScriptType(field.type)};`. -/
def renderMember (f : Field) : Member :=
  { name := f.name, tsType := getTypeScriptType f.type, optionalMark := f.isOptional }

/-- Members of `export interface ${entityPascal}` in `interfaceContent`:
`id: string;`, one line per parsed field, then `createdAt`/`updatedAt`. -/
def interfaceMembers (fields : List Field) : List Member :=
  { name := ("id".toList), tsType := ("string".toList), optionalMark := false }
    :: fields.map renderMember
    ++ [{ name := ("createdAt".toList), tsType := ("Date".toList), optionalMark := false },
        { name := ("updatedAt".toList), tsType := ("Date".toList), optionalMark := false }]

/-- Members of `export interface Create${entityPascal}Dto`: exactly one line
per parsed field. -/
def createDtoMembers (fields : List Field) : List Member :=
  fields.map renderMember

/-- Members of `export interface Update${entityPascal}Dto`: exactly one line
per parsed field. -/
def updateDtoMembers (fields : List Field) : List Member :=
  fields.map renderMember

/-- Decorator attached to a member of the generated entity class. -/
inductive EntityDecorator
  | primaryGeneratedUuid
  | column (columnType : Str) (nullable : Bool)
  | createDate
  | updateDate
deriving DecidableEq

/-- The `nullable:` option carried by a `@Column` decorator (decorators
without that option are not nullable). -/
def EntityDecorator.nullableFlag : EntityDecorator → Bool
  | .column _ n => n
  | _ => false

/-- One member of the generated entity class: its decorator line and its
`name?: tsType` declaration line. -/
structure EntityMember where
  decorator : EntityDecorator
  name : Str
  tsType : Str
  optionalMark : Bool
deriving DecidableEq

/-- Members of the entity class in `entityContent`: the
`@PrimaryGeneratedColumn('uuid') id`, then per field
`@Column({ type: getTypeORMType(..), nullable: isOptional })` with
`name?: tsType`, then the `@CreateDateColumn`/`@UpdateDateColumn` pair. -/
def entityMembers (fields : List Field) : List EntityMember :=
  { decorator := .primaryGeneratedUuid, name := ("id".toList),
    tsType := ("string".toList), optionalMark := false }
    :: fields.map (fun f =>
        { decorator := .column (getTypeORMType f.type) f.isOptional,
          name := f.name, tsType := getTypeScriptType f.type,
          optionalMark := f.isOptional })
    ++ [{ decorator := .createDate, name := ("createdAt".toList),
          tsType := ("Date".toList), optionalMark := false },
        { decorator := .updateDate, name := ("updatedAt".toList),
          tsType := ("Date".toList), optionalMark := false }]

/-- One column object of the generated migration.  The `id`, `createdAt` and
`updatedAt` objects carry no `isNullable` key in the source; they are
modelled with `isNullable := false`, TypeORM's default. -/
structure MigColumn where
  name : Str
  columnType : Str
  isNullable : Bool
deriving DecidableEq

/-- Columns of `migrationContent`: the `uuid` primary key, one column per
parsed field (`type: getTypeORMType(..), isNullable: isOptional`), then the
`createdAt`/`updatedAt` timestamp columns. -/
def migrationColumns (fields : List Field) : List MigColumn :=
  { name := ("id".toList), columnType := ("uuid".toList), isNullable := false }
    :: fields.map (fun f =>
        { name := f.name, columnType := getTypeORMType f.type,
          isNullable := f.isOptional })
    ++ [{ name := ("createdAt".toList), columnType := ("timestamp".toList),
          isNullable := false },
        { name := ("updatedAt".toList), columnType := ("timestamp".toList),
          isNullable := false }]

/-- The migration class name template
`Create${entityPascal}Table${timestamp}` (also the value of its `name`
property). -/
def migClassName (entityPascal : Str) (timestamp : Nat) : Str :=
  ("Create".toList) ++ entityPascal ++ ("Table".toList) ++ (Nat.repr timestamp).toList

/-- The migration file name template
`Create${entityPascal}Table${timestamp}.ts` used by `writeFileSync`. -/
def migFileName (entityPascal : Str) (timestamp : Nat) : Str :=
  ("Create".toList) ++ entityPascal ++ ("Table".toList) ++ (Nat.repr timestamp).toList
    ++ (".ts".toList)

/-- One step of the `exports.forEach` merge over `index.ts`:
`if (!indexContent.includes(exportLine)) indexContent += '\n' + exportLine`. -/
def mergeLine (indexContent exportLine : Str) : Str :=
  if jsIncludes indexContent exportLine then indexContent
  else indexContent ++ '\n' :: exportLine

/-- The whole `exports.forEach` loop threading `indexContent` through. -/
def mergeExports (indexContent : Str) (lines : List Str) : Str :=
  lines.foldl mergeLine indexContent

/-- The four export lines of the `exports` array. -/
def exportLines (entityName : Str) : List Str :=
  [("export * from \x27./lib/".toList) ++ entityName ++ (".interface\x27;".toList),
   ("export * from \x27./lib/".toList) ++ entityName ++ (".service\x27;".toList),
   ("export * from \x27./lib/".toList) ++ entityName ++ (".entity\x27;".toList),
   ("export * from \x27./lib/".toList) ++ entityName ++ (".controller\x27;".toList)]

/-- The default field list: `args[1] || 'name:string,description:string'`. -/
def defaultFields : Str := ("name:string,description:string".toList)

/-- `args[1] || default`: a missing second argument and the empty string are
both falsy in JS, so both select the default spec. -/
def resolveFieldsArg (arg : Option Str) : Str :=
  match arg with
  | none => defaultFields
  | some s => if s = [] then defaultFields else s

/-- The five relative paths this generator writes with `writeFileSync`. -/
def writtenPaths (entityName : Str) (timestamp : Nat) : List Str :=
  [("libs/olympus/core/src/lib/".toList) ++ entityName ++ (".interface.ts".toList),
   ("libs/olympus/core/src/lib/".toList) ++ entityName ++ (".service.ts".toList),
   ("libs/olympus/core/src/lib/".toList) ++ entityName ++ (".entity.ts".toList),
   ("libs/olympus/core/src/lib/".toList) ++ entityName ++ (".controller.ts".toList),
   ("libs/olympus/core/src/lib/migrations/".toList)
     ++ migFileName (toPascalCase entityName) timestamp]

/-- One run of the first generator: parsing never fails, and the file writes
always happen.  `Date.now()` is passed in as `timestamp`. -/
def run (entityName : Str) (fieldsArg : Option Str) (timestamp : Nat) :
    List Field × List Str :=
  (parseFields (resolveFieldsArg fieldsArg), writtenPaths entityName timestamp)

end Gen1

namespace Gen2

/-- One parsed field of `scripts/generate-crud.js`:
`{ name, type, isOptional, decorators }`. -/
structure Field where
  name : Str
  type : Str
  isOptional : Bool
  decorators : List Str
deriving DecidableEq

/-- The `switch (cleanType.toLowerCase())` of `parseFields`: the resolved
TypeScript type and the single `@Column` decorator pushed for the field.
Unrecognized tokens keep `cleanType` itself as the type and get a bare
`@Column()`. -/
def resolveType (cleanType : Str) : Str × Str :=
  let l := toLowerJS cleanType
  if l = ("string".toList) then (("string".toList), ("@Column()".toList))
  else if l = ("number".toList) then
    (("number".toList), ("@Column(\x7b type: \"int\" \x7d)".toList))
  else if l = ("boolean".toList) then
    (("boolean".toList), ("@Column(\x7b type: \"boolean\" \x7d)".toList))
  else if l = ("date".toList) then
    (("Date".toList), ("@Column(\x7b type: \"timestamp\" \x7d)".toList))
  else (cleanType, ("@Column()".toList))

/-- The two `replace` calls rewriting `decorators[0]` when the field is
optional: first `replace(')', ', { nullable: true })')`, then
`replace('@Column(,', '@Column(')`. -/
def fixNullable (d : Str) : Str :=
  replaceFirst
    (replaceFirst d ([')']) ((", \x7b nullable: true \x7d)".toList)))
    (("@Column(,".toList)) (("@Column(".toList))

/-- Body of the `map` in `parseFields` of `scripts/generate-crud.js`.
When a token has no `:`, the destructured `type` is `undefined` and
`type.includes('?')` throws a `TypeError`; that crash is modelled by
`none`.  Otherwise `isOptional = type.includes('?')`,
`cleanType = type.replace('?', '')`, and the field records the trimmed name,
the switch-resolved type and the (possibly nullable-rewritten) decorator. -/
def parseField (field : Str) : Option Field :=
  let parts := (trimJS field).splitOn ':'
  let name := parts.headD []
  match parts[1]? with
  | none => none
  | some type =>
    let isOptional := jsIncludes type ['?']
    let cleanType := replaceFirst type ['?'] []
    let r := resolveType cleanType
    some { name := trimJS name
           type := r.1
           isOptional := isOptional
           decorators := [if isOptional then fixNullable r.2 else r.2] }

/-- `parseFields`: split on `,` and parse each token; the first crashing
token aborts the run. -/
def parseFields (fieldsString : Str) : Option (List Field) :=
  (fieldsString.splitOn ',').mapM parseField

/-- `toPascalCase`: `charAt(0).toUpperCase() + slice(1)`. -/
def toPascalCase (s : Str) : Str :=
  match s with
  | [] => []
  | c :: cs => Char.toUpper c :: cs

/-- `toCamelCase`: `charAt(0).toLowerCase() + slice(1)`. -/
def toCamelCase (s : Str) : Str :=
  match s with
  | [] => []
  | c :: cs => Char.toLower c :: cs

/-- `toSnakeCase`:
`str.replace(/([A-Z])/g, '_$1').toLowerCase().replace(/^_/, '')` —
an underscore is inserted before each ASCII capital, everything is
lower-cased, and one leading underscore is removed. -/
def toSnakeCase (s : Str) : Str :=
  let t := toLowerJS (s.flatMap (fun c => if c.isUpper then ['_', c] else [c]))
  match t with
  | '_' :: rest => rest
  | other => other

/-- Table name interpolated into `@Entity` in `generateEntity`:
`toSnakeCase(toPascalCase(entityName))`, with no plural suffix. -/
def entityTableName (entityName : Str) : Str :=
  toSnakeCase (toPascalCase entityName)

/-- Route segment interpolated into `@Controller` in `generateController`:
`toSnakeCase(toPascalCase(entityName))`, with no plural suffix. -/
def controllerRoute (entityName : Str) : Str :=
  toSnakeCase (toPascalCase entityName)

/-- One member of the entity class emitted by `generateEntity`: its
decorator lines and its `name: type | null` declaration (`nullableUnion`
records the interpolated `' | null'`). -/
structure EMember where
  name : Str
  tsType : Str
  nullableUnion : Bool
  decorators : List Str
deriving DecidableEq

/-- Class members of `generateEntity`: the `@PrimaryGeneratedColumn()`
numeric `id`, then one member per field carrying the field's decorators and
a `| null` union iff the field is optional. -/
def entityMembers (fields : List Field) : List EMember :=
  { name := ("id".toList), tsType := ("number".toList), nullableUnion := false,
    decorators := [("@PrimaryGeneratedColumn()".toList)] }
    :: fields.map (fun f =>
        { name := f.name, tsType := f.type, nullableUnion := f.isOptional,
          decorators := f.decorators })

/-- One member line of a generated DTO or client interface
(`optionalMark` records a `?` suffix in the DTO and the `' | null'` union in
the client interface). -/
structure DtoMember where
  name : Str
  tsType : Str
  optionalMark : Bool
deriving DecidableEq

/-- Members of `generateCreateDto`: fields whose name contains the substring
`id` are skipped (`if (!field.name.includes('id'))`); optional fields render
`name?: type`, required ones render with validation decorators (not
modelled structurally — they never carry nullability) and no `?`. -/
def createDtoMembers (fields : List Field) : List DtoMember :=
  fields.filterMap (fun f =>
    if jsIncludes f.name ("id".toList) then none
    else some { name := f.name, tsType := f.type, optionalMark := f.isOptional })

/-- Members of `generateInterface` (the client model `I${Pascal}`):
`id: number`, then every field with a `| null` union iff optional. -/
def interfaceMembers (fields : List Field) : List DtoMember :=
  { name := ("id".toList), tsType := ("number".toList), optionalMark := false }
    :: fields.map (fun f =>
        { name := f.name, tsType := f.type, optionalMark := f.isOptional })

/-- The migration column type chosen inside `generateMigration`:
`'varchar'` unless the resolved field type is `number`/`boolean`/`Date`. -/
def migColumnType (t : Str) : Str :=
  if t = ("number".toList) then ("int".toList)
  else if t = ("boolean".toList) then ("boolean".toList)
  else if t = ("Date".toList) then ("timestamp".toList)
  else ("varchar".toList)

/-- One column object of the generated migration.  The `id` column carries
no `isNullable` key in the source; it is modelled with `isNullable := false`,
TypeORM's default. -/
structure MigColumn where
  name : Str
  columnType : Str
  isNullable : Bool
deriving DecidableEq

/-- Columns of `generateMigration`: the auto-increment `int` primary key,
then one column per field except those whose name contains the substring
`id` (`if (!field.name.includes('id'))`). -/
def migrationColumns (fields : List Field) : List MigColumn :=
  { name := ("id".toList), columnType := ("int".toList), isNullable := false }
    :: fields.filterMap (fun f =>
        if jsIncludes f.name ("id".toList) then none
        else some { name := f.name, columnType := migColumnType f.type,
                    isNullable := f.isOptional })

/-- `new Date().toISOString().replace(/[-:T]/g, '').split('.')[0]`, as a
function of the ISO string the run observes. -/
def compactTs (iso : Str) : Str :=
  (iso.filter (fun c => !(c == '-' || c == ':' || c == 'T'))).takeWhile
    (fun c => c != '.')

/-- The value `generateMigration` returns (its emitted class name, table
name, column list and the timestamp it computed once). -/
structure Migration where
  className : Str
  tableName : Str
  columns : List MigColumn
  timestamp : Str
deriving DecidableEq

/-- `generateMigration`: computes the timestamp once, emits
`Create${pascalCase}Table${timestamp}` over table
`toSnakeCase(pascalCase)`, and returns `{ content, timestamp }`. -/
def generateMigration (entityName : Str) (fields : List Field) (iso : Str) :
    Migration :=
  let pascalCase := toPascalCase entityName
  let snakeCase := toSnakeCase pascalCase
  let timestamp := compactTs iso
  { className := ("Create".toList) ++ pascalCase ++ ("Table".toList) ++ timestamp
    tableName := snakeCase
    columns := migrationColumns fields
    timestamp := timestamp }

/-- The migration file name built by the orchestrator from the *returned*
timestamp:
`${migration.timestamp}_create_${toSnakeCase(toPascalCase(entityName))}_table.ts`. -/
def migFileName (entityName : Str) (fields : List Field) (iso : Str) : Str :=
  (generateMigration entityName fields iso).timestamp
    ++ ("_create_".toList) ++ toSnakeCase (toPascalCase entityName)
    ++ ("_table.ts".toList)

/-- The two index merges share this shape: skip when the line is already a
substring; replace a manifest that trims to empty or to the placeholder
comment by `line + '\n'`; otherwise append `line + '\n'`. -/
def mergeIndexWith (placeholder content line : Str) : Str :=
  if jsIncludes content line then content
  else if trimJS content = [] ∨ trimJS content = placeholder then line ++ ['\n']
  else content ++ line ++ ['\n']

/-- The placeholder comment of `models/index.ts`. -/
def modelsPlaceholder : Str := ("// Export all model interfaces here".toList)

/-- The placeholder comment of `services/index.ts`. -/
def servicesPlaceholder : Str := ("// Export all services here".toList)

/-- The `models/index.ts` merge. -/
def mergeModelsIndex (content line : Str) : Str :=
  mergeIndexWith modelsPlaceholder content line

/-- The `services/index.ts` merge. -/
def mergeServicesIndex (content line : Str) : Str :=
  mergeIndexWith servicesPlaceholder content line

/-- `export * from './${entityName}';`. -/
def modelsExportLine (entityName : Str) : Str :=
  ("export * from \x27./".toList) ++ entityName ++ ("\x27;".toList)

/-- `export * from './${entityName}.service';`. -/
def servicesExportLine (entityName : Str) : Str :=
  ("export * from \x27./".toList) ++ entityName ++ (".service\x27;".toList)

/-- Relative paths of the files a successful run writes; `none` when
`parseFields` crashes (the crash happens before any directory creation or
file write in the script). -/
def writtenFiles (entityName fieldsString iso : Str) : Option (List Str) :=
  (parseFields fieldsString).map (fun fields =>
    [("apps/zeus/src/app/".toList) ++ entityName ++ ['/'] ++ entityName
       ++ (".entity.ts".toList),
     ("apps/zeus/src/app/".toList) ++ entityName ++ ['/'] ++ entityName
       ++ (".module.ts".toList),
     ("apps/zeus/src/app/".toList) ++ entityName ++ ['/'] ++ entityName
       ++ (".service.ts".toList),
     ("apps/zeus/src/app/".toList) ++ entityName ++ ['/'] ++ entityName
       ++ (".controller.ts".toList),
     ("apps/zeus/src/app/".toList) ++ entityName ++ ("/dto/create-".toList)
       ++ entityName ++ (".dto.ts".toList),
     ("apps/zeus/src/app/".toList) ++ entityName ++ ("/dto/update-".toList)
       ++ entityName ++ (".dto.ts".toList),
     ("apps/zeus/src/migrations/".toList) ++ migFileName entityName fields iso,
     ("libs/olympus/core/src/lib/models/".toList) ++ entityName ++ (".ts".toList),
     ("libs/olympus/core/src/lib/services/".toList) ++ entityName
       ++ (".service.ts".toList)])

end Gen2

/-- Value-type half of the fixed mapping stated by the spec and by claim C2
(and by `CRUD-GENERATOR.md`): each recognized token, matched
case-insensitively, maps to its TypeScript type; unrecognized tokens map to
`string`. -/
def specValueType (t : Str) : Str :=
  let l := toLowerJS t
  if l = ("string".toList) then ("string".toList)
  else if l = ("number".toList) then ("number".toList)
  else if l = ("boolean".toList) then ("boolean".toList)
  else if l = ("date".toList) then ("Date".toList)
  else if l = ("uuid".toList) then ("string".toList)
  else if l = ("text".toList) then ("string".toList)
  else if l = ("int".toList) then ("number".toList)
  else if l = ("float".toList) then ("number".toList)
  else if l = ("decimal".toList) then ("number".toList)
  else ("string".toList)

/-- Column-type half of the fixed mapping stated by the spec and by claim C2
(and by `CRUD-GENERATOR.md`): each recognized token, matched
case-insensitively, maps to its storage column type; unrecognized tokens map
to the generic variable-length string column `varchar`. -/
def specColumnType (t : Str) : Str :=
  let l := toLowerJS t
  if l = ("string".toList) then ("varchar".toList)
  else if l = ("number".toList) then ("numeric".toList)
  else if l = ("boolean".toList) then ("boolean".toList)
  else if l = ("date".toList) then ("timestamp".toList)
  else if l = ("uuid".toList) then ("uuid".toList)
  else if l = ("text".toList) then ("text".toList)
  else if l = ("int".toList) then ("int".toList)
  else if l = ("float".toList) then ("float".toList)
  else if l = ("decimal".toList) then ("decimal".toList)
  else ("varchar".toList)

/-! Helper lemmas about the JS string primitives and the merges. -/

theorem jsIncludes_iff {s sub : Str} : jsIncludes s sub = true ↔ sub <:+: s := by
  simp [jsIncludes]

theorem singleton_infix_iff {c : Char} {l : Str} : [c] <:+: l ↔ c ∈ l := by
  constructor
  · rintro ⟨s, t, rfl⟩
    simp
  · intro h
    obtain ⟨s, t, rfl⟩ := List.append_of_mem h
    exact ⟨s, t, by simp⟩

theorem infix_append_of_right {l t : Str} (h : l <:+: t) (s : Str) :
    l <:+: s ++ t :=
  h.trans (List.suffix_append s t).isInfix

theorem replaceFirst_cons_single (x : Char) (xs : Str) (c : Char) (rep : Str) :
    replaceFirst (x :: xs) [c] rep
      = if c = x then rep ++ xs else x :: replaceFirst xs [c] rep := by
  simp only [replaceFirst, List.isPrefixOf, List.drop]
  by_cases h : c = x <;> simp [h]

theorem replaceFirst_single_not_mem {c : Char} {s : Str} (rep : Str)
    (h : c ∉ s) : replaceFirst s [c] rep = s := by
  induction s with
  | nil => simp [replaceFirst]
  | cons x xs ih =>
    rw [replaceFirst_cons_single]
    have hcx : c ≠ x := by intro e; exact h (e ▸ List.mem_cons_self x xs)
    simp [hcx, ih (fun hm => h (List.mem_cons_of_mem x hm))]

theorem replaceFirst_single_append {c : Char} {pre suf : Str}
    (h : c ∉ pre) : replaceFirst (pre ++ c :: suf) [c] [] = pre ++ suf := by
  induction pre with
  | nil => rw [List.nil_append, replaceFirst_cons_single]; simp
  | cons x xs ih =>
    rw [List.cons_append, replaceFirst_cons_single]
    have hcx : c ≠ x := by intro e; exact h (e ▸ List.mem_cons_self x xs)
    simp [hcx, ih (fun hm => h (List.mem_cons_of_mem x hm))]

theorem splitOn_sep_of_not_mem (sep : Char) {xs : Str} (ys : Str)
    (h : sep ∉ xs) : (xs ++ sep :: ys).splitOn sep = xs :: ys.splitOn sep := by
  refine List.splitOnP_first _ xs ?_ sep (by simp) ys
  intro x hx
  simp only [beq_iff_eq]
  intro e
  exact h (e ▸ hx)

theorem splitOn_of_not_mem (sep : Char) {xs : Str} (h : sep ∉ xs) :
    xs.splitOn sep = [xs] := by
  refine List.splitOnP_eq_single _ xs ?_
  intro x hx
  simp only [beq_iff_eq]
  intro e
  exact h (e ▸ hx)

theorem mergeLine_skip_case {c l : Str} (h : l <:+: c) :
    Gen1.mergeLine c l = c := by
  simp [Gen1.mergeLine, jsIncludes, h]

theorem mergeLine_append_case {c l : Str} (h : ¬ l <:+: c) :
    Gen1.mergeLine c l = c ++ '\n' :: l := by
  simp [Gen1.mergeLine, jsIncludes, h]

theorem infix_mergeLine {x c : Str} (l : Str) (h : x <:+: c) :
    x <:+: Gen1.mergeLine c l := by
  by_cases hi : l <:+: c
  · rwa [mergeLine_skip_case hi]
  · rw [mergeLine_append_case hi]
    exact h.trans (List.prefix_append c ('\n' :: l)).isInfix

theorem line_infix_mergeLine (c l : Str) : l <:+: Gen1.mergeLine c l := by
  by_cases hi : l <:+: c
  · rwa [mergeLine_skip_case hi]
  · rw [mergeLine_append_case hi]
    exact infix_append_of_right (List.suffix_cons '\n' l).isInfix c

theorem infix_mergeExports {x c : Str} (ls : List Str) (h : x <:+: c) :
    x <:+: Gen1.mergeExports c ls := by
  induction ls generalizing c with
  | nil => exact h
  | cons l ls ih => exact ih (infix_mergeLine l h)

theorem mem_infix_mergeExports (ls : List Str) (c : Str) :
    ∀ l ∈ ls, l <:+: Gen1.mergeExports c ls := by
  induction ls generalizing c with
  | nil => intro l hl; cases hl
  | cons a as ih =>
    intro l hl
    rcases List.mem_cons.mp hl with rfl | hl
    · exact infix_mergeExports as (line_infix_mergeLine c l)
    · exact ih (Gen1.mergeLine c a) l hl

theorem mergeExports_of_all_infix {ls : List Str} {c : Str}
    (h : ∀ l ∈ ls, l <:+: c) : Gen1.mergeExports c ls = c := by
  induction ls with
  | nil => rfl
  | cons a as ih =>
    show Gen1.mergeExports (Gen1.mergeLine c a) as = c
    rw [mergeLine_skip_case (h a (List.mem_cons_self a as))]
    exact ih (fun l hl => h l (List.mem_cons_of_mem a hl))

theorem mergeIndexWith_skip_case {ph c l : Str} (h : l <:+: c) :
    Gen2.mergeIndexWith ph c l = c := by
  simp [Gen2.mergeIndexWith, jsIncludes, h]

theorem line_infix_mergeIndexWith (ph c l : Str) :
    l <:+: Gen2.mergeIndexWith ph c l := by
  by_cases hi : l <:+: c
  · rwa [mergeIndexWith_skip_case hi]
  · unfold Gen2.mergeIndexWith
    rw [if_neg (by simp [jsIncludes, hi])]
    by_cases hb : trimJS c = [] ∨ trimJS c = ph
    · rw [if_pos hb]
      exact (List.prefix_append l ['\n']).isInfix
    · rw [if_neg hb, List.append_assoc]
      exact infix_append_of_right (List.prefix_append l ['\n']).isInfix c

/-! Claim theorems. -/

/-- C1 (amended): the merges skip a candidate line already present as a
substring; an absent line is appended — in the first generator with a
*leading* newline (`content ++ '\n' ++ line`), in the second with a trailing
newline except that a manifest trimming to blank or to the placeholder
comment is replaced by just `line ++ '\n'`; and both merges are idempotent:
running them a second time with the same candidates leaves the manifest
exactly unchanged (hence its set of distinct lines is unchanged). -/
theorem c1_manifest_merge :
    (∀ c l : Str, l <:+: c → Gen1.mergeLine c l = c)
  ∧ (∀ c l : Str, ¬ l <:+: c → Gen1.mergeLine c l = c ++ '\n' :: l)
  ∧ (∀ (c : Str) (ls : List Str),
      Gen1.mergeExports (Gen1.mergeExports c ls) ls = Gen1.mergeExports c ls)
  ∧ (∀ ph c l : Str, l <:+: c → Gen2.mergeIndexWith ph c l = c)
  ∧ (∀ ph c l : Str, ¬ l <:+: c → trimJS c ≠ [] → trimJS c ≠ ph →
      Gen2.mergeIndexWith ph c l = c ++ l ++ ['\n'])
  ∧ (∀ ph c l : Str,
      Gen2.mergeIndexWith ph (Gen2.mergeIndexWith ph c l) l
        = Gen2.mergeIndexWith ph c l) := by
  refine ⟨fun c l h => mergeLine_skip_case h,
          fun c l h => mergeLine_append_case h,
          fun c ls => mergeExports_of_all_infix (mem_infix_mergeExports ls c),
          fun ph c l h => mergeIndexWith_skip_case h,
          fun ph c l h hb hp => ?_,
          fun ph c l => mergeIndexWith_skip_case (line_infix_mergeIndexWith ph c l)⟩
  simp [Gen2.mergeIndexWith, jsIncludes, h, hb, hp]

/-- C1 witness: the amended merge facts evaluated at concrete manifests. -/
theorem c1_manifest_merge_w :
    Gen1.mergeLine ("ab".toList) ("ab".toList) = ("ab".toList)
  ∧ Gen1.mergeLine ("ab".toList) ("x".toList) = ("ab".toList) ++ '\n' :: ("x".toList)
  ∧ Gen1.mergeExports (Gen1.mergeExports ([]) (Gen1.exportLines ("x".toList)))
      (Gen1.exportLines ("x".toList))
      = Gen1.mergeExports ([]) (Gen1.exportLines ("x".toList))
  ∧ Gen2.mergeIndexWith (Gen2.modelsPlaceholder) ("ab".toList) ("ab".toList) = ("ab".toList)
  ∧ Gen2.mergeIndexWith (Gen2.modelsPlaceholder) ("ab".toList) ("x".toList)
      = ("ab".toList) ++ ("x".toList) ++ ['\n'] :=
  ⟨c1_manifest_merge.1 _ _ (by decide),
   c1_manifest_merge.2.1 _ _ (by decide),
   c1_manifest_merge.2.2.1 _ _,
   c1_manifest_merge.2.2.2.1 _ _ _ (by decide),
   c1_manifest_merge.2.2.2.2.1 _ _ _ (by decide) (by decide) (by decide)⟩

/-- C1 counterexample: the first generator appends the new line with a
*leading* newline, not a trailing one (`'abc' + line 'x'` yields
`"abc\nx"`, not `"abcx\n"`), and the second generator *replaces* a manifest
holding only the placeholder comment instead of preserving it. -/
theorem c1_manifest_merge_cx :
    Gen1.mergeLine ("abc".toList) ("x".toList) = ("abc\nx".toList)
  ∧ ("abc\nx".toList) ≠ ("abcx\n".toList)
  ∧ Gen2.mergeModelsIndex (Gen2.modelsPlaceholder) (Gen2.modelsExportLine ("x".toList))
      = Gen2.modelsExportLine ("x".toList) ++ ['\n']
  ∧ ¬ (Gen2.modelsPlaceholder
        <:+: Gen2.mergeModelsIndex (Gen2.modelsPlaceholder)
               (Gen2.modelsExportLine ("x".toList))) := by decide

/-- C2: the first generator's shared type tables realize exactly the fixed,
case-insensitive mapping stated by the spec and by `CRUD-GENERATOR.md`
(unrecognized tokens default to `string`/`varchar`), and every one of its
emitters reads resolved types through those two functions; but
`scripts/generate-crud.js` contradicts that documented mapping: it resolves
`number` to an `int` column (not `numeric`) and passes the unrecognized
token `uuid` through as the value type (not `string`). -/
theorem c2_type_mapping :
    (∀ t : Str, Gen1.getTypeScriptType t = specValueType t)
  ∧ (∀ t : Str, Gen1.getTypeORMType t = specColumnType t)
  ∧ (∀ f : Gen1.Field,
       (Gen1.renderMember f).tsType = Gen1.getTypeScriptType f.type
     ∧ (Gen1.entityMembers [f]).map (fun m => m.decorator)
         = [.primaryGeneratedUuid,
            .column (Gen1.getTypeORMType f.type) f.isOptional,
            .createDate, .updateDate]
     ∧ (Gen1.migrationColumns [f]).map (fun c => c.columnType)
         = [("uuid".toList), Gen1.getTypeORMType f.type,
            ("timestamp".toList), ("timestamp".toList)])
  ∧ (Gen2.parseField ("price:number".toList)).map (fun f => f.decorators)
      = some [("@Column(\x7b type: \"int\" \x7d)".toList)]
  ∧ Gen2.migColumnType ("number".toList) = ("int".toList)
  ∧ ("int".toList) ≠ specColumnType ("number".toList)
  ∧ (Gen2.parseField ("token:uuid".toList)).map (fun f => f.type)
      = some ("uuid".toList)
  ∧ ("uuid".toList) ≠ specValueType ("uuid".toList) := by
  refine ⟨?_, ?_, ?_, by decide, by decide, by decide, by decide, by decide⟩
  · intro t
    unfold Gen1.getTypeScriptType specValueType Gen1.tsTypeMap
    generalize toLowerJS t = l
    by_cases h1 : l = ("string".toList)
    · subst h1; decide
    by_cases h2 : l = ("number".toList)
    · subst h2; decide
    by_cases h3 : l = ("boolean".toList)
    · subst h3; decide
    by_cases h4 : l = ("date".toList)
    · subst h4; decide
    by_cases h5 : l = ("uuid".toList)
    · subst h5; decide
    by_cases h6 : l = ("text".toList)
    · subst h6; decide
    by_cases h7 : l = ("int".toList)
    · subst h7; decide
    by_cases h8 : l = ("float".toList)
    · subst h8; decide
    by_cases h9 : l = ("decimal".toList)
    · subst h9; decide
    have e1 : (l == ['s','t','r','i','n','g']) = false := beq_eq_false_iff_ne.mpr h1
    have e2 : (l == ['n','u','m','b','e','r']) = false := beq_eq_false_iff_ne.mpr h2
    have e3 : (l == ['b','o','o','l','e','a','n']) = false := beq_eq_false_iff_ne.mpr h3
    have e4 : (l == ['d','a','t','e']) = false := beq_eq_false_iff_ne.mpr h4
    have e5 : (l == ['u','u','i','d']) = false := beq_eq_false_iff_ne.mpr h5
    have e6 : (l == ['t','e','x','t']) = false := beq_eq_false_iff_ne.mpr h6
    have e7 : (l == ['i','n','t']) = false := beq_eq_false_iff_ne.mpr h7
    have e8 : (l == ['f','l','o','a','t']) = false := beq_eq_false_iff_ne.mpr h8
    have e9 : (l == ['d','e','c','i','m','a','l']) = false := beq_eq_false_iff_ne.mpr h9
    simp [List.lookup_cons, e1, e2, e3, e4, e5, e6, e7, e8, e9,
      show ¬ l = ['s','t','r','i','n','g'] from h1,
      show ¬ l = ['n','u','m','b','e','r'] from h2,
      show ¬ l = ['b','o','o','l','e','a','n'] from h3,
      show ¬ l = ['d','a','t','e'] from h4,
      show ¬ l = ['u','u','i','d'] from h5,
      show ¬ l = ['t','e','x','t'] from h6,
      show ¬ l = ['i','n','t'] from h7,
      show ¬ l = ['f','l','o','a','t'] from h8,
      show ¬ l = ['d','e','c','i','m','a','l'] from h9]
  · intro t
    unfold Gen1.getTypeORMType specColumnType Gen1.ormTypeMap
    generalize toLowerJS t = l
    by_cases h1 : l = ("string".toList)
    · subst h1; decide
    by_cases h2 : l = ("number".toList)
    · subst h2; decide
    by_cases h3 : l = ("boolean".toList)
    · subst h3; decide
    by_cases h4 : l = ("date".toList)
    · subst h4; decide
    by_cases h5 : l = ("uuid".toList)
    · subst h5; decide
    by_cases h6 : l = ("text".toList)
    · subst h6; decide
    by_cases h7 : l = ("int".toList)
    · subst h7; decide
    by_cases h8 : l = ("float".toList)
    · subst h8; decide
    by_cases h9 : l = ("decimal".toList)
    · subst h9; decide
    have e1 : (l == ['s','t','r','i','n','g']) = false := beq_eq_false_iff_ne.mpr h1
    have e2 : (l == ['n','u','m','b','e','r']) = false := beq_eq_false_iff_ne.mpr h2
    have e3 : (l == ['b','o','o','l','e','a','n']) = false := beq_eq_false_iff_ne.mpr h3
    have e4 : (l == ['d','a','t','e']) = false := beq_eq_false_iff_ne.mpr h4
    have e5 : (l == ['u','u','i','d']) = false := beq_eq_false_iff_ne.mpr h5
    have e6 : (l == ['t','e','x','t']) = false := beq_eq_false_iff_ne.mpr h6
    have e7 : (l == ['i','n','t']) = false := beq_eq_false_iff_ne.mpr h7
    have e8 : (l == ['f','l','o','a','t']) = false := beq_eq_false_iff_ne.mpr h8
    have e9 : (l == ['d','e','c','i','m','a','l']) = false := beq_eq_false_iff_ne.mpr h9
    simp [List.lookup_cons, e1, e2, e3, e4, e5, e6, e7, e8, e9,
      show ¬ l = ['s','t','r','i','n','g'] from h1,
      show ¬ l = ['n','u','m','b','e','r'] from h2,
      show ¬ l = ['b','o','o','l','e','a','n'] from h3,
      show ¬ l = ['d','a','t','e'] from h4,
      show ¬ l = ['u','u','i','d'] from h5,
      show ¬ l = ['t','e','x','t'] from h6,
      show ¬ l = ['i','n','t'] from h7,
      show ¬ l = ['f','l','o','a','t'] from h8,
      show ¬ l = ['d','e','c','i','m','a','l'] from h9]
  · intro f
    refine ⟨rfl, ?_, ?_⟩ <;>
      simp [Gen1.entityMembers, Gen1.migrationColumns]

theorem filterMap_if_skip {α β : Type} (p : α → Bool) (g : α → β) (l : List α) :
    l.filterMap (fun a => if p a then none else some (g a))
      = (l.filter (fun a => !(p a))).map g := by
  induction l with
  | nil => rfl
  | cons a l ih =>
    by_cases h : p a = true <;>
      simp [List.filterMap_cons, List.filter_cons, h, ih]

/-- C3 (amended): the optional flag of a parsed field propagates as the one
nullability signal of every artifact *in which the field is rendered*: in
the first generator the interface, create-DTO, update-DTO, entity
declaration, entity `@Column` decorator and migration column all carry the
field's `isOptional` (and the fixed `id`/`createdAt`/`updatedAt` members are
never nullable); in the second generator the entity member, its decorator's
`nullable: true` option, the client interface member, and — only for fields
whose name does not contain the substring `id`, the others being omitted
entirely — the create-DTO member and migration column all carry the field's
`isOptional`. -/
theorem c3_optional_propagation :
    (∀ fields : List Gen1.Field,
       (Gen1.interfaceMembers fields).map (fun m => m.optionalMark)
         = false :: fields.map (fun f => f.isOptional) ++ [false, false]
     ∧ (Gen1.createDtoMembers fields).map (fun m => m.optionalMark)
         = fields.map (fun f => f.isOptional)
     ∧ (Gen1.updateDtoMembers fields).map (fun m => m.optionalMark)
         = fields.map (fun f => f.isOptional)
     ∧ (Gen1.entityMembers fields).map (fun m => m.optionalMark)
         = false :: fields.map (fun f => f.isOptional) ++ [false, false]
     ∧ (Gen1.entityMembers fields).map (fun m => m.decorator.nullableFlag)
         = false :: fields.map (fun f => f.isOptional) ++ [false, false]
     ∧ (Gen1.migrationColumns fields).map (fun c => c.isNullable)
         = false :: fields.map (fun f => f.isOptional) ++ [false, false])
  ∧ (∀ fields : List Gen2.Field,
       (Gen2.entityMembers fields).map (fun m => m.nullableUnion)
         = false :: fields.map (fun f => f.isOptional)
     ∧ (Gen2.interfaceMembers fields).map (fun m => m.optionalMark)
         = false :: fields.map (fun f => f.isOptional)
     ∧ (Gen2.createDtoMembers fields).map (fun m => m.optionalMark)
         = (fields.filter (fun f => !(jsIncludes f.name ("id".toList)))).map
             (fun f => f.isOptional)
     ∧ (Gen2.migrationColumns fields).map (fun c => c.isNullable)
         = false :: (fields.filter (fun f => !(jsIncludes f.name ("id".toList)))).map
             (fun f => f.isOptional))
  ∧ (∀ (tok : Str) (f : Gen2.Field), Gen2.parseField tok = some f →
       jsIncludes (f.decorators.headD []) ("nullable: true".toList)
         = f.isOptional) := by
  refine ⟨?_, ?_, ?_⟩
  · intro fields
    refine ⟨?_, ?_, ?_, ?_, ?_, ?_⟩ <;>
      simp [Gen1.interfaceMembers, Gen1.createDtoMembers, Gen1.updateDtoMembers,
        Gen1.entityMembers, Gen1.migrationColumns, Gen1.renderMember,
        Gen1.EntityDecorator.nullableFlag, List.map_map, Function.comp]
  · intro fields
    refine ⟨?_, ?_, ?_, ?_⟩ <;>
      simp [Gen2.entityMembers, Gen2.interfaceMembers, Gen2.createDtoMembers,
        Gen2.migrationColumns, filterMap_if_skip, List.map_map, Function.comp]
  · intro tok f h
    simp only [Gen2.parseField] at h
    cases hp : ((trimJS tok).splitOn ':')[1]? with
    | none => rw [hp] at h; exact absurd h (by simp)
    | some type =>
      rw [hp] at h
      injection h with h
      subst h
      have hr : (Gen2.resolveType (replaceFirst type ['?'] [])).2 = ("@Column()".toList)
          ∨ (Gen2.resolveType (replaceFirst type ['?'] [])).2
              = ("@Column(\x7b type: \"int\" \x7d)".toList)
          ∨ (Gen2.resolveType (replaceFirst type ['?'] [])).2
              = ("@Column(\x7b type: \"boolean\" \x7d)".toList)
          ∨ (Gen2.resolveType (replaceFirst type ['?'] [])).2
              = ("@Column(\x7b type: \"timestamp\" \x7d)".toList) := by
        simp only [Gen2.resolveType]
        split_ifs <;> simp
      change jsIncludes
          (if jsIncludes type ['?']
            then Gen2.fixNullable (Gen2.resolveType (replaceFirst type ['?'] [])).2
            else (Gen2.resolveType (replaceFirst type ['?'] [])).2)
          ("nullable: true".toList)
        = jsIncludes type ['?']
      rcases hr with hr | hr | hr | hr <;> rw [hr] <;>
        cases hopt : jsIncludes type ['?'] <;> decide

/-- C3 witness: the decorator/flag agreement evaluated on the parse of
`a:string?`. -/
theorem c3_optional_propagation_w :
    jsIncludes
        (({ name := ("a".toList), type := ("string".toList), isOptional := true,
            decorators := [("@Column( \x7b nullable: true \x7d)".toList)] } :
            Gen2.Field).decorators.headD [])
        ("nullable: true".toList) = true :=
  c3_optional_propagation.2.2 ("a:string?".toList) _ (by decide)

/-- C3 counterexample: `video:string?` parses to an *optional* field, yet
the second generator's migration emits no column for it at all (its name
contains the substring `id`), so the optional field does not render as a
nullable column in the migration, and it is missing from the create-DTO
too. -/
theorem c3_optional_propagation_cx :
    Gen2.parseFields ("video:string?".toList)
      = some [{ name := ("video".toList), type := ("string".toList),
                isOptional := true,
                decorators := [("@Column( \x7b nullable: true \x7d)".toList)] }]
  ∧ (Gen2.migrationColumns
        [{ name := ("video".toList), type := ("string".toList),
           isOptional := true,
           decorators := [("@Column( \x7b nullable: true \x7d)".toList)] }]).map
        (fun c => c.name)
      = [("id".toList)]
  ∧ Gen2.createDtoMembers
        [{ name := ("video".toList), type := ("string".toList),
           isOptional := true,
           decorators := [("@Column( \x7b nullable: true \x7d)".toList)] }]
      = []
  ∧ ("video".toList) ≠ ("id".toList) := by decide

/-- C4 (amended): both generators upper-case (resp. lower-case) the first
character and keep the rest unchanged, so `typeName` and `instanceName`
share the remaining sequence; in the first generator the entity table name,
controller route and migration table name all equal `instanceName ++ "s"`
(whose remainder is the shared remainder followed by `s`); in the second
generator the table name and route are instead the snake-case of the
pascal-case name, with no plural suffix. -/
theorem c4_name_derivation :
    (∀ (c : Char) (cs : Str),
       Gen1.toPascalCase (c :: cs) = Char.toUpper c :: cs
     ∧ Gen1.toCamelCase (c :: cs) = Char.toLower c :: cs
     ∧ Gen1.entityTableName (c :: cs) = Gen1.toCamelCase (c :: cs) ++ ['s']
     ∧ Gen1.controllerRoute (c :: cs) = Gen1.entityTableName (c :: cs)
     ∧ Gen1.migrationTableName (c :: cs) = Gen1.entityTableName (c :: cs)
     ∧ (Gen1.toPascalCase (c :: cs)).drop 1 = (Gen1.toCamelCase (c :: cs)).drop 1
     ∧ (Gen1.entityTableName (c :: cs)).drop 1
         = (Gen1.toCamelCase (c :: cs)).drop 1 ++ ['s'])
  ∧ (∀ entityName : Str,
       Gen2.entityTableName entityName
         = Gen2.toSnakeCase (Gen2.toPascalCase entityName)
     ∧ Gen2.controllerRoute entityName = Gen2.entityTableName entityName) := by
  refine ⟨fun c cs => ?_, fun e => ⟨rfl, rfl⟩⟩
  refine ⟨rfl, rfl, rfl, rfl, rfl, ?_, ?_⟩ <;>
    simp [Gen1.toPascalCase, Gen1.toCamelCase, Gen1.entityTableName]

/-- C4 counterexample: for entity `user` the first generator's collection
name is `users`, whose remainder after the first character is `sers`, not
the `ser` shared by `User`/`user` — so the three names do *not* all share
the same remaining sequence; and in the second generator the route/table
name is `user` (snake-case, no plural `s`), not `users`. -/
theorem c4_name_derivation_cx :
    Gen1.entityTableName ("user".toList) = ("users".toList)
  ∧ (Gen1.entityTableName ("user".toList)).drop 1
      ≠ (Gen1.toPascalCase ("user".toList)).drop 1
  ∧ Gen2.entityTableName ("user".toList) = ("user".toList)
  ∧ Gen2.entityTableName ("user".toList)
      ≠ Gen2.toCamelCase ("user".toList) ++ ['s'] := by decide

/-- C6 (amended): neither generator produces a `MalformedFieldSpec` or
`EmptySpec` error.  In the first generator a token with no `:` silently
gets the default type `string` and the run writes its five files anyway,
and an empty overall spec string is falsy so the default field list is
used; in the second generator a token with no `:` (and likewise the empty
spec, whose single token is empty) crashes the `TypeError`-throwing parser
before any file is written, so that run writes zero files. -/
theorem c6_missing_separator :
    (∀ (entityName : Str) (ts : Nat),
       Gen1.run entityName (some ("name".toList)) ts
         = ([{ name := ("name".toList), type := ("string".toList),
               isOptional := false }],
            Gen1.writtenPaths entityName ts)
     ∧ (Gen1.run entityName (some ("name".toList)) ts).2.length = 5
     ∧ Gen1.resolveFieldsArg (some []) = Gen1.defaultFields)
  ∧ (∀ entityName iso : Str,
       Gen2.writtenFiles entityName ("name".toList) iso = none
     ∧ Gen2.writtenFiles entityName ([]) iso = none) := by
  constructor
  · intro entityName ts
    refine ⟨?_, by simp [Gen1.run, Gen1.writtenPaths], by decide⟩
    unfold Gen1.run
    refine Prod.ext ?_ rfl
    show Gen1.parseFields (Gen1.resolveFieldsArg (some ("name".toList)))
      = [{ name := ("name".toList), type := ("string".toList),
           isOptional := false }]
    decide
  · intro entityName iso
    constructor <;>
      · unfold Gen2.writtenFiles
        rw [show Gen2.parseFields _ = none by decide]
        rfl

/-- C6 counterexample: on the separator-free token `name` the first
generator does not fail at all — it parses the token as a field of default
type `string` and still writes its five files, so the claimed
`MalformedFieldSpec` error and the claimed "zero files written" are both
contradicted. -/
theorem c6_missing_separator_cx :
    Gen1.parseFields ("name".toList)
      = [{ name := ("name".toList), type := ("string".toList),
           isOptional := false }]
  ∧ (Gen1.run ("user".toList) (some ("name".toList)) 17).2.length = 5 := by
  constructor
  · decide
  · simp [Gen1.run, Gen1.writtenPaths]

/-- C7: each generator computes its migration timestamp once and threads
the same value into both the migration file name and the emitted class
name: in the first generator the file name is literally the class name plus
`.ts`; in the second the single `compactTs` value heads the snake-case file
name and ends the `Create…Table…` class name. -/
theorem c7_timestamp_threading :
    (∀ (entityPascal : Str) (ts : Nat),
       Gen1.migFileName entityPascal ts
         = Gen1.migClassName entityPascal ts ++ (".ts".toList))
  ∧ (∀ (entityName iso : Str) (fields : List Gen2.Field),
       ∃ t : Str,
         (Gen2.generateMigration entityName fields iso).timestamp = t
       ∧ (Gen2.generateMigration entityName fields iso).className
           = ("Create".toList) ++ Gen2.toPascalCase entityName
               ++ ("Table".toList) ++ t
       ∧ Gen2.migFileName entityName fields iso
           = t ++ ("_create_".toList)
               ++ Gen2.toSnakeCase (Gen2.toPascalCase entityName)
               ++ ("_table.ts".toList)) :=
  ⟨fun p ts => by simp [Gen1.migFileName, Gen1.migClassName],
   fun e iso fs => ⟨Gen2.compactTs iso, rfl, rfl, rfl⟩⟩

/-- C10: in the generator of the first convention every artifact that
declares columns or entity members — interface, entity class, migration —
carries `createdAt` and `updatedAt` immediately after the parsed fields
(typed `Date` in TypeScript and `timestamp` in the migration, never
nullable), while the create-DTO and update-DTO contain exactly the parsed
fields and no timestamp members. -/
theorem c10_fixed_timestamp_members (fields : List Gen1.Field) :
    (Gen1.interfaceMembers fields).map (fun m => m.name)
      = ("id".toList) :: fields.map (fun f => f.name)
          ++ [("createdAt".toList), ("updatedAt".toList)]
  ∧ (Gen1.entityMembers fields).map (fun m => m.name)
      = ("id".toList) :: fields.map (fun f => f.name)
          ++ [("createdAt".toList), ("updatedAt".toList)]
  ∧ (Gen1.migrationColumns fields).map (fun c => c.name)
      = ("id".toList) :: fields.map (fun f => f.name)
          ++ [("createdAt".toList), ("updatedAt".toList)]
  ∧ (Gen1.createDtoMembers fields).map (fun m => m.name)
      = fields.map (fun f => f.name)
  ∧ (Gen1.updateDtoMembers fields).map (fun m => m.name)
      = fields.map (fun f => f.name)
  ∧ (Gen1.interfaceMembers fields).drop (fields.length + 1)
      = [{ name := ("createdAt".toList), tsType := ("Date".toList),
           optionalMark := false },
         { name := ("updatedAt".toList), tsType := ("Date".toList),
           optionalMark := false }]
  ∧ (Gen1.entityMembers fields).drop (fields.length + 1)
      = [{ decorator := .createDate, name := ("createdAt".toList),
           tsType := ("Date".toList), optionalMark := false },
         { decorator := .updateDate, name := ("updatedAt".toList),
           tsType := ("Date".toList), optionalMark := false }]
  ∧ (Gen1.migrationColumns fields).drop (fields.length + 1)
      = [{ name := ("createdAt".toList), columnType := ("timestamp".toList),
           isNullable := false },
         { name := ("updatedAt".toList), columnType := ("timestamp".toList),
           isNullable := false }] := by
  refine ⟨?_, ?_, ?_, ?_, ?_, ?_, ?_, ?_⟩ <;>
    simp [Gen1.interfaceMembers, Gen1.entityMembers, Gen1.migrationColumns,
      Gen1.createDtoMembers, Gen1.updateDtoMembers, Gen1.renderMember,
      List.map_map, Function.comp, List.drop_succ_cons, List.drop_left']

/-- C5 (amended): each parser handles the optional marker on exactly one
side of the token.  The first generator's parser detects and strips `?`
only on the *name* side: `name?:type` yields the clean name with
`isOptional = true`, while `name:type?` yields `isOptional = false` with
the `?` left inside the type token.  The second generator's parser detects
and strips `?` only on the *type* side: `name:type?` yields the clean
resolved type with `isOptional = true` (and the nullable-rewritten
decorator), while `name?:type` yields `isOptional = false` with the `?`
left inside the name. -/
theorem c5_optional_marker (name type : Str)
    (h1 : '?' ∉ name) (h2 : ':' ∉ name) (h3 : '?' ∉ type) (h4 : ':' ∉ type)
    (h5 : trimJS (name ++ '?' :: ':' :: type) = name ++ '?' :: ':' :: type)
    (h6 : trimJS (name ++ ':' :: (type ++ ['?']))
            = name ++ ':' :: (type ++ ['?']))
    (h7 : trimJS name = name)
    (h8 : trimJS (name ++ ['?']) = name ++ ['?']) :
    Gen1.parseField (name ++ '?' :: ':' :: type)
      = { name := name,
          type := if type = [] then ("string".toList) else type,
          isOptional := true }
  ∧ Gen1.parseField (name ++ ':' :: (type ++ ['?']))
      = { name := name, type := type ++ ['?'], isOptional := false }
  ∧ Gen2.parseField (name ++ ':' :: (type ++ ['?']))
      = some { name := name, type := (Gen2.resolveType type).1,
               isOptional := true,
               decorators := [Gen2.fixNullable (Gen2.resolveType type).2] }
  ∧ Gen2.parseField (name ++ '?' :: ':' :: type)
      = some { name := name ++ ['?'], type := (Gen2.resolveType type).1,
               isOptional := false,
               decorators := [(Gen2.resolveType type).2] } := by
  have m1 : ':' ∉ name ++ ['?'] := by simp [h2]
  have m2 : ':' ∉ type ++ ['?'] := by simp [h4]
  have s1 : (name ++ '?' :: ':' :: type).splitOn ':' = [name ++ ['?'], type] := by
    have e : name ++ '?' :: ':' :: type = (name ++ ['?']) ++ ':' :: type := by
      simp
    rw [e, splitOn_sep_of_not_mem ':' type m1, splitOn_of_not_mem ':' h4]
  have s2 : (name ++ ':' :: (type ++ ['?'])).splitOn ':'
      = [name, type ++ ['?']] := by
    rw [splitOn_sep_of_not_mem ':' (type ++ ['?']) h2,
        splitOn_of_not_mem ':' m2]
  have r1 : replaceFirst (name ++ ['?']) ['?'] [] = name := by
    rw [replaceFirst_single_append h1, List.append_nil]
  have r2 : replaceFirst (type ++ ['?']) ['?'] [] = type := by
    rw [replaceFirst_single_append h3, List.append_nil]
  have i1 : jsIncludes (name ++ ['?']) ['?'] = true := by
    simp [jsIncludes, singleton_infix_iff]
  have i2 : jsIncludes (type ++ ['?']) ['?'] = true := by
    simp [jsIncludes, singleton_infix_iff]
  have i3 : jsIncludes name ['?'] = false := by
    simp [jsIncludes, singleton_infix_iff, h1]
  have i4 : jsIncludes type ['?'] = false := by
    simp [jsIncludes, singleton_infix_iff, h3]
  refine ⟨?_, ?_, ?_, ?_⟩
  · simp [Gen1.parseField, h5, s1, r1, i1]
  · simp [Gen1.parseField, h6, s2, i3, replaceFirst_single_not_mem ([] : Str) h1]
  · simp [Gen2.parseField, h6, s2, i2, r2, h7]
  · simp [Gen2.parseField, h5, s1, i4, replaceFirst_single_not_mem ([] : Str) h3,
      h8]

/-- C5 witness: the marker facts evaluated at the token pieces `a` and
`boolean`. -/
theorem c5_optional_marker_w :
    Gen1.parseField (("a".toList) ++ '?' :: ':' :: ("boolean".toList))
      = { name := ("a".toList),
          type := if ("boolean".toList) = ([] : Str) then ("string".toList)
                  else ("boolean".toList),
          isOptional := true }
  ∧ Gen1.parseField (("a".toList) ++ ':' :: (("boolean".toList) ++ ['?']))
      = { name := ("a".toList), type := ("boolean".toList) ++ ['?'],
          isOptional := false }
  ∧ Gen2.parseField (("a".toList) ++ ':' :: (("boolean".toList) ++ ['?']))
      = some { name := ("a".toList),
               type := (Gen2.resolveType ("boolean".toList)).1,
               isOptional := true,
               decorators :=
                 [Gen2.fixNullable (Gen2.resolveType ("boolean".toList)).2] }
  ∧ Gen2.parseField (("a".toList) ++ '?' :: ':' :: ("boolean".toList))
      = some { name := ("a".toList) ++ ['?'],
               type := (Gen2.resolveType ("boolean".toList)).1,
               isOptional := false,
               decorators := [(Gen2.resolveType ("boolean".toList)).2] } :=
  c5_optional_marker ("a".toList) ("boolean".toList)
    (by decide) (by decide) (by decide) (by decide)
    (by decide) (by decide) (by decide) (by decide)

/-- C5 counterexample: the marker is *not* detected on whichever side
carries it — the first generator ignores a type-side marker (`a:string?`
parses as non-optional with the `?` still inside the type token), and the
second generator ignores a name-side marker (`a?:string` parses as
non-optional with the `?` still inside the name). -/
theorem c5_optional_marker_cx :
    Gen1.parseField ("a:string?".toList)
      = { name := ("a".toList), type := ("string?".toList),
          isOptional := false }
  ∧ ('?' ∈ ("string?".toList))
  ∧ Gen2.parseField ("a?:string".toList)
      = some { name := ("a?".toList), type := ("string".toList),
               isOptional := false, decorators := [("@Column()".toList)] }
  ∧ ('?' ∈ ("a?".toList)) := by decide

/-- C8: evaluation of the id-filter bug.  `generateCreateDto` and
`generateMigration` in `scripts/generate-crud.js` skip every field whose
name *contains* the substring `id`, not only the exact reserved name: the
legitimate field `video` is silently dropped from both the create-DTO and
the migration, while `parentId` survives only because the containment test
is case-sensitive; a field literally named `id` is skipped as the claim
requires. -/
theorem c8_id_substring_filter :
    Gen2.parseField ("video:string".toList)
      = some { name := ("video".toList), type := ("string".toList),
               isOptional := false, decorators := [("@Column()".toList)] }
  ∧ ("video".toList) ≠ ("id".toList)
  ∧ Gen2.createDtoMembers
      [{ name := ("video".toList), type := ("string".toList),
         isOptional := false, decorators := [("@Column()".toList)] }] = []
  ∧ (Gen2.migrationColumns
      [{ name := ("video".toList), type := ("string".toList),
         isOptional := false, decorators := [("@Column()".toList)] }]).map
        (fun c => c.name) = [("id".toList)]
  ∧ Gen2.createDtoMembers
      [{ name := ("id".toList), type := ("number".toList),
         isOptional := false,
         decorators := [("@Column(\x7b type: \"int\" \x7d)".toList)] }] = []
  ∧ (Gen2.createDtoMembers
      [{ name := ("parentId".toList), type := ("string".toList),
         isOptional := false, decorators := [("@Column()".toList)] }]).map
        (fun m => m.name) = [("parentId".toList)]
  ∧ (Gen2.migrationColumns
      [{ name := ("parentId".toList), type := ("string".toList),
         isOptional := false, decorators := [("@Column()".toList)] }]).map
        (fun c => c.name) = [("id".toList), ("parentId".toList)] := by decide

/-- C9 (amended): each parser splits the token on *every* `:` and keeps
only the first two segments: the name is the text before the first `:`, the
type token is the text between the first and the second `:`, and everything
after a second `:` is discarded — appending `:rest` to a well-formed
`name:type` token changes nothing in either parser's output. -/
theorem c9_first_colon_split (name type rest : Str)
    (h2 : ':' ∉ name) (h4 : ':' ∉ type)
    (h5 : trimJS (name ++ ':' :: (type ++ ':' :: rest))
            = name ++ ':' :: (type ++ ':' :: rest))
    (h6 : trimJS (name ++ ':' :: type) = name ++ ':' :: type) :
    Gen1.parseField (name ++ ':' :: (type ++ ':' :: rest))
      = Gen1.parseField (name ++ ':' :: type)
  ∧ Gen2.parseField (name ++ ':' :: (type ++ ':' :: rest))
      = Gen2.parseField (name ++ ':' :: type) := by
  have s1 : (name ++ ':' :: (type ++ ':' :: rest)).splitOn ':'
      = name :: type :: rest.splitOn ':' := by
    rw [splitOn_sep_of_not_mem ':' (type ++ ':' :: rest) h2,
        splitOn_sep_of_not_mem ':' rest h4]
  have s2 : (name ++ ':' :: type).splitOn ':' = [name, type] := by
    rw [splitOn_sep_of_not_mem ':' type h2, splitOn_of_not_mem ':' h4]
  constructor
  · simp [Gen1.parseField, h5, h6, s1, s2]
  · simp [Gen2.parseField, h5, h6, s1, s2]

/-- C9 witness: discarding after the second colon evaluated at `a:b:c`. -/
theorem c9_first_colon_split_w :
    Gen1.parseField (("a".toList) ++ ':' :: (("b".toList) ++ ':' :: ("c".toList)))
      = Gen1.parseField (("a".toList) ++ ':' :: ("b".toList))
  ∧ Gen2.parseField (("a".toList) ++ ':' :: (("b".toList) ++ ':' :: ("c".toList)))
      = Gen2.parseField (("a".toList) ++ ':' :: ("b".toList)) :=
  c9_first_colon_split ("a".toList) ("b".toList) ("c".toList)
    (by decide) (by decide) (by decide) (by decide)

/-- C9 counterexample: on `a:b:c` the parser's type token is `b`, not the
claimed "entire remaining text after the first `:`" `b:c` — the `c`
segment is discarded. -/
theorem c9_first_colon_split_cx :
    Gen1.parseField ("a:b:c".toList)
      = { name := ("a".toList), type := ("b".toList), isOptional := false }
  ∧ ("b".toList) ≠ ("b:c".toList) := by decide

end Olympus
